import Mathlib

/-!
# Verification of the Group-Free-3D training driver (`train_dist.py`)

A shallow embedding of the training-driver logic of `train_dist.py`:
the `EarlyStopping` class, checkpoint save/load, the epoch loop of `main`,
the loss collection of `evaluate_one_epoch`, the evaluated prediction-head
prefix list, and the gradient-clipping statistics of `train_one_epoch`.

Modelling conventions:
* Python floats (validation losses, `delta`, gradient norms) are modelled
  as rationals `ℚ`.
* Epoch numbers and frequencies are naturals `ℕ`; theorems about code that
  computes `epoch % freq` carry a `0 < freq` hypothesis, since Python raises
  `ZeroDivisionError` on a zero modulus.
* File-system effects are modelled explicitly: a checkpoint write is a value
  `some (path, contents)`, and the epoch loop of `main` produces a trace of
  `Event`s (training epochs, evaluations, checkpoint writes).
* The neural network, optimizer and scheduler are opaque type parameters:
  only their state dicts flow through the checkpoint logic.
-/

/-- The state of the `EarlyStopping` class (`train_dist.py` lines 113-164).
`val_loss_min` starts as `np.Inf`, modelled as `none`. The `verbose`, `path`
and `trace_func` fields have no effect on the modelled state and are omitted. -/
structure EarlyStopping where
  patience : ℕ
  delta : ℚ
  counter : ℕ
  best_score : Option ℚ
  early_stop : Bool
  val_loss_min : Option ℚ
deriving DecidableEq, Repr

/-- Constructor `EarlyStopping.__init__`: `counter = 0`, `best_score = None`,
`early_stop = False`, `val_loss_min = np.Inf`. -/
def EarlyStopping.init (patience : ℕ) (delta : ℚ) : EarlyStopping :=
  { patience := patience, delta := delta, counter := 0, best_score := none,
    early_stop := false, val_loss_min := none }

/-- Method `EarlyStopping.save_checkpoint` (lines 157-164): always records
`val_loss_min := val_loss`; it invokes the module-level
`save_checkpoint(opt, epoch, ..., save_cur=True)` — which writes the file —
only when `epoch % opt.save_freq` is nonzero.  The returned `Bool` is `true`
exactly when a checkpoint file is written. -/
def EarlyStopping.saveCkpt (s : EarlyStopping) (save_freq : ℕ) (val_loss : ℚ)
    (epoch : ℕ) : EarlyStopping × Bool :=
  ({ s with val_loss_min := some val_loss }, epoch % save_freq != 0)

/-- Method `EarlyStopping.__call__` (lines 140-155).  The second component records
whether `self.save_checkpoint` was invoked (`some w`, with `w = true` iff a
checkpoint file was actually written), or not invoked (`none`). -/
def EarlyStopping.call (s : EarlyStopping) (save_freq : ℕ) (val_loss : ℚ)
    (epoch : ℕ) : EarlyStopping × Option Bool :=
  let score := -val_loss
  match s.best_score with
  | none =>
      let r := EarlyStopping.saveCkpt { s with best_score := some score }
        save_freq val_loss epoch
      (r.1, some r.2)
  | some best =>
      if score < best + s.delta then
        let s' := { s with counter := s.counter + 1 }
        (if s'.patience ≤ s'.counter then { s' with early_stop := true } else s',
         none)
      else
        let r := EarlyStopping.saveCkpt
          { s with best_score := some score, counter := 0 } save_freq val_loss epoch
        (r.1, some r.2)

/-- The fields of the parsed command-line arguments (`parse_option`) that the
modelled logic reads.  `rank` stands for `dist.get_rank()` of the process. -/
structure Args where
  start_epoch : ℕ
  max_epoch : ℕ
  val_freq : ℕ
  train_eval_freq : ℕ
  save_freq : ℕ
  log_dir : String
  rank : ℕ
deriving DecidableEq, Repr

/-- The `state` dict built by `save_checkpoint` (lines 190-209): config,
save path, the three state dicts, and the epoch.  The model, optimizer and
scheduler state dicts are opaque type parameters `M`, `O`, `S`. -/
structure Checkpoint (M O S : Type) where
  config : Args
  save_path : String
  model : M
  optimizer : O
  scheduler : S
  epoch : ℕ

/-- The path `os.path.join(args.log_dir, f'ckpt_epoch_{epoch}.pth')`. -/
def ckptPath (args : Args) (epoch : String) : String :=
  args.log_dir ++ "/ckpt_epoch_" ++ epoch ++ ".pth"

/-- Module-level `save_checkpoint` (lines 190-209): returns
`some (path, contents)` when a checkpoint file is written
(`save_cur or not (epoch % args.save_freq)`), `none` otherwise. -/
def save_checkpoint {M O S : Type} (args : Args) (epoch : ℕ) (model : M)
    (optimizer : O) (scheduler : S) (save_cur : Bool) :
    Option (String × Checkpoint M O S) :=
  if save_cur || (epoch % args.save_freq == 0) then
    some (ckptPath args (toString epoch),
      { config := args, save_path := ckptPath args (toString epoch),
        model := model, optimizer := optimizer, scheduler := scheduler,
        epoch := epoch })
  else
    none

/-- Function `load_checkpoint` (lines 167-187): sets `args.start_epoch` to the saved
epoch plus one and loads the model, optimizer and scheduler state dicts from
the checkpoint contents. -/
def load_checkpoint {M O S : Type} (args : Args) (c : Checkpoint M O S) :
    Args × M × O × S :=
  ({ args with start_epoch := c.epoch + 1 }, c.model, c.optimizer, c.scheduler)

/-- The effect of one `save_checkpoint` call on the log directory, modelled
as a map from paths to file contents. -/
def applySave {M O S : Type} (args : Args) (epoch : ℕ) (m : M) (o : O) (s : S)
    (save_cur : Bool) (dir : String → Option (Checkpoint M O S)) :
    String → Option (Checkpoint M O S) :=
  match save_checkpoint args epoch m o s save_cur with
  | none => dir
  | some pc => fun q => if q = pc.1 then some pc.2 else dir q

/-- The evaluated prediction-head prefix list of `evaluate_one_epoch`
(lines 492-495): `['last_', 'proposal_'] + [f'{i}head_' for i in
range(num_decoder_layers - 1)]` when `num_decoder_layers > 0`, else
`['proposal_']`. -/
def prefixes (num_decoder_layers : ℤ) : List String :=
  if 0 < num_decoder_layers then
    ["last_", "proposal_"] ++
      (List.range (num_decoder_layers - 1).toNat).map (fun i => toString i ++ "head_")
  else
    ["proposal_"]

/-- The `valid_losses` list of `evaluate_one_epoch`: starts empty
(line 490) and appends the batch loss once per batch (line 533). -/
def valid_losses (batchLosses : List ℚ) : List ℚ :=
  batchLosses.foldl (fun acc l => acc ++ [l]) []

/-- The mean `valid_loss = np.average(valid_losses)` (line 588), the value returned as
second result of `evaluate_one_epoch` (line 590). -/
def evaluate_valid_loss (batchLosses : List ℚ) : ℚ :=
  (valid_losses batchLosses).sum / ((valid_losses batchLosses).length : ℚ)

/-- Observable events of `main` (lines 316-408): a training epoch
(`train_one_epoch`, line 366), an evaluation over the train-eval loader
(line 380), an evaluation over the test loader (line 388), a checkpoint
file write, and the final evaluation over the test loader (line 403). -/
inductive Event where
  | trainEpoch (e : ℕ)
  | trainEval (e : ℕ)
  | valEval (e : ℕ)
  | ckptWrite (path : String)
  | finalEval
deriving DecidableEq, Repr

/-- The checkpoint write performed inside `EarlyStopping.save_checkpoint`,
given the save indicator returned by `EarlyStopping.call`. -/
def esSaveEvents (args : Args) (epoch : ℕ) (w : Option Bool) : List Event :=
  match w with
  | some true => [Event.ckptWrite (ckptPath args (toString epoch))]
  | _ => []

/-- The per-epoch `save_checkpoint(args, epoch, model, optimizer, scheduler)`
call at line 401 (`save_cur=False`): writes iff `epoch % save_freq == 0`. -/
def periodicSaveEvents (args : Args) (epoch : ℕ) : List Event :=
  if epoch % args.save_freq == 0 then
    [Event.ckptWrite (ckptPath args (toString epoch))]
  else []

/-- One iteration of `main`'s epoch loop (lines 361-401), parameterized by
the per-epoch batch losses `bl` of the test loader.  Returns the events of
the iteration, the updated early-stopping state, and whether the loop
continues (`false` models the `break` at line 399). -/
def epochStep (args : Args) (bl : ℕ → List ℚ) (es : EarlyStopping) (epoch : ℕ) :
    List Event × EarlyStopping × Bool :=
  if args.rank == 0 then
    let evs1 := if (epoch % args.train_eval_freq == 0) || (epoch == args.val_freq)
      then [Event.trainEpoch epoch, Event.trainEval epoch]
      else [Event.trainEpoch epoch]
    if epoch % args.val_freq == 0 then
      let r := es.call args.save_freq (evaluate_valid_loss (bl epoch)) epoch
      let evs2 := evs1 ++ [Event.valEval epoch] ++ esSaveEvents args epoch r.2
      if r.1.early_stop then (evs2, r.1, false)
      else (evs2 ++ periodicSaveEvents args epoch, r.1, true)
    else (evs1 ++ periodicSaveEvents args epoch, es, true)
  else ([Event.trainEpoch epoch], es, true)

/-- The loop `for epoch in range(args.start_epoch, args.max_epoch + 1)` (line 361),
as fuel-indexed recursion: `fuel` iterations remain, `epoch` is the current
loop index, and the loop stops early when an iteration reports `break`. -/
def mainLoop (args : Args) (bl : ℕ → List ℚ) :
    ℕ → ℕ → EarlyStopping → List Event × EarlyStopping
  | 0, _, es => ([], es)
  | fuel + 1, epoch, es =>
    let r := epochStep args bl es epoch
    if r.2.2 then
      let rest := mainLoop args bl fuel (epoch + 1) r.2.1
      (r.1 ++ rest.1, rest.2)
    else (r.1, r.2.1)

/-- Function `main` (lines 316-408): runs the epoch loop from `start_epoch` to
`max_epoch` with a fresh `EarlyStopping(patience=20)`, then performs the
final evaluation over the test loader (line 403), writes
`ckpt_epoch_last.pth` (line 406, `save_cur=True`), and returns its path.
(Named `mainRun` because Lean reserves the name `main`.) -/
def mainRun (args : Args) (bl : ℕ → List ℚ) : List Event × EarlyStopping × String :=
  let r := mainLoop args bl (args.max_epoch + 1 - args.start_epoch)
    args.start_epoch (EarlyStopping.init 20 0)
  (r.1 ++ [Event.finalEval, Event.ckptWrite (ckptPath args "last")], r.2,
    ckptPath args "last")

/-- The epochs at which `train_one_epoch` runs, read off an event trace. -/
def trainEpochs (evs : List Event) : List ℕ :=
  evs.filterMap (fun ev => match ev with
    | Event.trainEpoch e => some e
    | _ => none)

/-- The per-batch tail of `train_one_epoch` (lines 443-451): the local
variable `grad_total_norm` (modelled as an `Option ℚ` binding carried across
batches) is assigned only inside the `config.clip_norm > 0` branch, and
`stat_dict['grad_norm'] = grad_total_norm` then reads it unconditionally;
reading it unbound raises `NameError`. -/
def train_batches (clip_norm : ℚ) : List ℚ → Option ℚ → Except String (Option ℚ)
  | [], gtn => Except.ok gtn
  | g :: gs, gtn =>
    match (if 0 < clip_norm then some g else gtn) with
    | some v => train_batches clip_norm gs (some v)
    | none => Except.error "NameError"

/-- Function `train_one_epoch` (lines 411-484), restricted to the `grad_norm`
statistic: `gradNorms` lists the clipped gradient norm of each batch, and
the local `grad_total_norm` starts unbound. -/
def train_one_epoch (clip_norm : ℚ) (gradNorms : List ℚ) :
    Except String (Option ℚ) :=
  train_batches clip_norm gradNorms none

/-- C1: first call sets `best_score := -val_loss` and invokes the
checkpoint-saving routine; a later call with `-val_loss < best_score + delta`
increments `counter` and leaves `early_stop` set exactly when it was already
set or the new counter has reached `patience`; a later call with
`-val_loss ≥ best_score + delta` resets `best_score` to `-val_loss`, invokes
the checkpoint-saving routine, and resets `counter` to `0`. -/
theorem earlyStopping_call_correct (sf : ℕ) (vl : ℚ) (ep : ℕ) (s : EarlyStopping) :
    (s.best_score = none →
      (s.call sf vl ep).1.best_score = some (-vl) ∧
      ((s.call sf vl ep).2).isSome = true) ∧
    (∀ b : ℚ, s.best_score = some b → -vl < b + s.delta →
      (s.call sf vl ep).1.counter = s.counter + 1 ∧
      (s.call sf vl ep).1.best_score = some b ∧
      ((s.call sf vl ep).1.early_stop = true ↔
        (s.early_stop = true ∨ s.patience ≤ s.counter + 1))) ∧
    (∀ b : ℚ, s.best_score = some b → b + s.delta ≤ -vl →
      (s.call sf vl ep).1.best_score = some (-vl) ∧
      ((s.call sf vl ep).2).isSome = true ∧
      (s.call sf vl ep).1.counter = 0) := by
  refine ⟨fun h => ?_, fun b hb hlt => ?_, fun b hb hge => ?_⟩
  · simp [EarlyStopping.call, EarlyStopping.saveCkpt, h]
  · simp only [EarlyStopping.call, hb]
    rw [if_pos hlt]
    by_cases hp : s.patience ≤ s.counter + 1
    · simp [hp]
    · simp [hp]
  · simp only [EarlyStopping.call, hb]
    rw [if_neg (by exact not_lt.mpr hge)]
    simp [EarlyStopping.saveCkpt]

/-- Witness for C1, on the improvement branch at a concrete state. -/
theorem earlyStopping_call_correct_witness :
    (EarlyStopping.call ⟨7, 0, 0, some (-1), false, none⟩ 10 2 3).1.counter = 0 + 1 ∧
    (EarlyStopping.call ⟨7, 0, 0, some (-1), false, none⟩ 10 2 3).1.best_score = some (-1) ∧
    ((EarlyStopping.call ⟨7, 0, 0, some (-1), false, none⟩ 10 2 3).1.early_stop = true ↔
      (false = true ∨ 7 ≤ 0 + 1)) :=
  (earlyStopping_call_correct 10 2 3 ⟨7, 0, 0, some (-1), false, none⟩).2.1
    (-1) rfl (by norm_num)

/-- C10 counterexample: two clauses of the claim fail on the code.
First, `counter` exceeds `patience`: with `patience = 1`, `delta = 0`, calls
with `val_loss = 1, 2, 3` leave `counter = 2 > 1 = patience`.  Second,
`best_score` once set is not monotonically non-decreasing when `delta` is
negative: from `best_score = 0` with `delta = -1`, a call with
`val_loss = 1/2` has score `-1/2`, and `-1/2 < 0 + (-1)` is false, so the
improving branch overwrites `best_score` with `-1/2 < 0` — it decreases. -/
theorem earlyStopping_invariants_counterexamples :
    (((((EarlyStopping.init 1 0).call 10 1 1).1.call 10 2 2).1.call 10 3 3).1.counter = 2 ∧
      ((((EarlyStopping.init 1 0).call 10 1 1).1.call 10 2 2).1.call 10 3 3).1.patience = 1) ∧
    ((EarlyStopping.call ⟨7, -1, 0, some 0, false, none⟩ 10 (1/2) 3).1.best_score =
        some (-(1/2)) ∧
      (-(1/2) : ℚ) < 0) := by
  refine ⟨?_, ?_, by norm_num⟩
  · norm_num [EarlyStopping.init, EarlyStopping.call, EarlyStopping.saveCkpt]
  · norm_num [EarlyStopping.call, EarlyStopping.saveCkpt]

/-- C10 (amended): with a non-negative `delta` and a state satisfying the
reachability invariant `counter ≤ patience ∨ early_stop`, every call keeps
`best_score` (once set) non-decreasing, never resets `early_stop` from `true`
to `false`, increases `counter` by at most one, and re-establishes the
invariant that whenever `counter` exceeds `patience`, `early_stop` is `true`
(the counter itself may exceed `patience` once `early_stop` is set). -/
theorem earlyStopping_invariants (sf : ℕ) (vl : ℚ) (ep : ℕ) (s : EarlyStopping)
    (hd : 0 ≤ s.delta) (hinv : s.counter ≤ s.patience ∨ s.early_stop = true) :
    (∀ b, s.best_score = some b →
      ∃ b', (s.call sf vl ep).1.best_score = some b' ∧ b ≤ b') ∧
    (s.early_stop = true → (s.call sf vl ep).1.early_stop = true) ∧
    (s.call sf vl ep).1.counter ≤ s.counter + 1 ∧
    ((s.call sf vl ep).1.counter ≤ (s.call sf vl ep).1.patience ∨
      (s.call sf vl ep).1.early_stop = true) := by
  rcases hbs : s.best_score with _ | b0
  · refine ⟨fun b hb => ?_, ?_, ?_, ?_⟩ <;>
      simp_all [EarlyStopping.call, EarlyStopping.saveCkpt]
  · by_cases hlt : -vl < b0 + s.delta
    · simp only [EarlyStopping.call, hbs, if_pos hlt]
      split <;> rename_i hp
      · exact ⟨fun b hb => ⟨b0, by simp, le_of_eq (Option.some_inj.mp hb).symm⟩,
          fun _ => by simp, by simp, Or.inr (by simp)⟩
      · refine ⟨fun b hb => ⟨b0, by simp, le_of_eq (Option.some_inj.mp hb).symm⟩,
          fun h => by simpa using h, by simp, Or.inl ?_⟩
        simp only [not_le] at hp
        simp at hp ⊢
        omega
    · simp only [EarlyStopping.call, hbs, if_neg hlt]
      have hle : b0 ≤ -vl := by
        have := not_lt.mp hlt
        linarith
      refine ⟨fun b hb => ?_, ?_, ?_, ?_⟩ <;>
        simp_all [EarlyStopping.saveCkpt]

/-- Witness for the amended C10 at a concrete state. -/
theorem earlyStopping_invariants_witness :
    ((EarlyStopping.init 20 0).call 10 5 1).1.counter ≤ 0 + 1 ∧
    (((EarlyStopping.init 20 0).call 10 5 1).1.counter ≤
        ((EarlyStopping.init 20 0).call 10 5 1).1.patience ∨
      ((EarlyStopping.init 20 0).call 10 5 1).1.early_stop = true) :=
  ⟨(earlyStopping_invariants 10 5 1 (EarlyStopping.init 20 0) (by decide)
      (Or.inl (by decide))).2.2.1,
   (earlyStopping_invariants 10 5 1 (EarlyStopping.init 20 0) (by decide)
      (Or.inl (by decide))).2.2.2⟩

/-- C4 counterexample: at epoch 10 with `save_freq = 10` an improving call
(the very first call) does NOT write a checkpoint file: the guard
`if epoch % opt.save_freq:` in `EarlyStopping.save_checkpoint` skips the
write when the epoch is a multiple of `save_freq`; only `val_loss_min`
is updated. -/
theorem earlyStopping_save_skipped_at_multiple :
    (EarlyStopping.init 7 0).best_score = none ∧
    ((EarlyStopping.init 7 0).call 10 1 10).2 ≠ some true ∧
    ((EarlyStopping.init 7 0).call 10 1 10).1.val_loss_min = some 1 := by
  decide

/-- C4 (amended): on every improving call (first call, or score at least
`best_score + delta`), `EarlyStopping` updates `val_loss_min` to the new
validation loss; it writes a model checkpoint if and only if the epoch is
NOT a multiple of `opt.save_freq`. -/
theorem earlyStopping_save_checkpoint_amended (sf : ℕ) (vl : ℚ) (ep : ℕ)
    (s : EarlyStopping) (hsf : 0 < sf)
    (himp : s.best_score = none ∨ ∃ b, s.best_score = some b ∧ b + s.delta ≤ -vl) :
    (s.call sf vl ep).1.val_loss_min = some vl ∧
    ((s.call sf vl ep).2 = some true ↔ ep % sf ≠ 0) := by
  rcases himp with hb | ⟨b, hb, hge⟩
  · simp [EarlyStopping.call, EarlyStopping.saveCkpt, hb]
  · simp only [EarlyStopping.call, hb, if_neg (not_lt.mpr hge)]
    simp [EarlyStopping.saveCkpt]

/-- Witness for the amended C4 at a concrete input. -/
theorem earlyStopping_save_checkpoint_amended_witness :
    ((EarlyStopping.init 7 0).call 10 1 3).1.val_loss_min = some 1 ∧
    (((EarlyStopping.init 7 0).call 10 1 3).2 = some true ↔ 3 % 10 ≠ 0) :=
  earlyStopping_save_checkpoint_amended 10 1 3 (EarlyStopping.init 7 0)
    (by decide) (Or.inl rfl)

/-- C3: checkpoint save/load round-trip.  If `save_checkpoint` writes a
checkpoint at epoch `e`, then `load_checkpoint` on its contents sets
`start_epoch` to `e + 1` and restores exactly the saved model, optimizer and
scheduler state dicts. -/
theorem checkpoint_roundtrip {M O S : Type} (args args2 : Args) (e : ℕ)
    (m : M) (o : O) (s : S) (sc : Bool) (p : String) (c : Checkpoint M O S)
    (h : save_checkpoint args e m o s sc = some (p, c)) :
    load_checkpoint args2 c = ({ args2 with start_epoch := e + 1 }, m, o, s) := by
  rw [save_checkpoint] at h
  split at h
  · rw [Option.some_inj] at h
    have hc : c = { config := args, save_path := ckptPath args (toString e),
                    model := m, optimizer := o, scheduler := s, epoch := e } := by
      have := congrArg Prod.snd h
      simpa using this.symm
    subst hc
    rfl
  · exact absurd h (by simp)

/-- Witness for C3 at a concrete checkpoint. -/
theorem checkpoint_roundtrip_witness :
    load_checkpoint (⟨1, 700, 10, 40, 10, "log", 0⟩ : Args)
      { config := ⟨1, 700, 10, 40, 10, "log", 0⟩,
        save_path := ckptPath ⟨1, 700, 10, 40, 10, "log", 0⟩ (toString 5),
        model := (3 : ℕ), optimizer := (4 : ℕ), scheduler := (5 : ℕ),
        epoch := 5 } =
      ((⟨6, 700, 10, 40, 10, "log", 0⟩ : Args), 3, 4, 5) :=
  checkpoint_roundtrip ⟨1, 700, 10, 40, 10, "log", 0⟩ ⟨1, 700, 10, 40, 10, "log", 0⟩
    5 3 4 5 true _ _ rfl

/-- C5: `save_checkpoint` writes `ckpt_epoch_{epoch}.pth` under `args.log_dir`
iff `save_cur` is true or the epoch is a multiple of `args.save_freq`; in every
other case the log directory is unchanged. -/
theorem save_checkpoint_writes_iff {M O S : Type} (args : Args) (e : ℕ)
    (m : M) (o : O) (s : S) (sc : Bool) (hsf : 0 < args.save_freq) :
    ((save_checkpoint args e m o s sc).isSome = true ↔
      (sc = true ∨ e % args.save_freq = 0)) ∧
    (∀ p c, save_checkpoint args e m o s sc = some (p, c) →
      p = args.log_dir ++ "/ckpt_epoch_" ++ toString e ++ ".pth") ∧
    (¬(sc = true ∨ e % args.save_freq = 0) →
      ∀ dir : String → Option (Checkpoint M O S),
        applySave args e m o s sc dir = dir) := by
  refine ⟨?_, ?_, ?_⟩
  · rw [save_checkpoint]
    split <;> rename_i hc <;>
      simp only [Bool.or_eq_true, beq_iff_eq] at hc <;> simp [hc]
  · intro p c h
    rw [save_checkpoint] at h
    split at h
    · have := congrArg Prod.fst (Option.some_inj.mp h)
      simp only at this
      rw [← this, ckptPath]
    · exact absurd h (by simp)
  · intro hno dir
    push_neg at hno
    have h1 : sc = false := by
      rcases hno with ⟨h1, _⟩
      exact Bool.not_eq_true sc ▸ h1
    have h2 : e % args.save_freq ≠ 0 := hno.2
    simp [applySave, save_checkpoint, h1, h2]

/-- Witness for C5 at a concrete non-writing call. -/
theorem save_checkpoint_writes_iff_witness :
    ((save_checkpoint (⟨1, 700, 10, 40, 10, "log", 0⟩ : Args) 7
        (1 : ℕ) (2 : ℕ) (3 : ℕ) false).isSome = true ↔
      (false = true ∨ 7 % 10 = 0)) ∧
    (∀ p c, save_checkpoint (⟨1, 700, 10, 40, 10, "log", 0⟩ : Args) 7
        (1 : ℕ) (2 : ℕ) (3 : ℕ) false = some (p, c) →
      p = "log" ++ "/ckpt_epoch_" ++ toString 7 ++ ".pth") ∧
    (¬(false = true ∨ 7 % 10 = 0) →
      ∀ dir : String → Option (Checkpoint ℕ ℕ ℕ),
        applySave ⟨1, 700, 10, 40, 10, "log", 0⟩ 7 1 2 3 false dir = dir) :=
  save_checkpoint_writes_iff ⟨1, 700, 10, 40, 10, "log", 0⟩ 7 1 2 3 false
    (by decide)

/-- C6: for `num_decoder_layers > 0` the evaluated prefixes are exactly
`last_`, `proposal_`, and `ihead_` for `0 ≤ i ≤ num_decoder_layers - 2`,
`num_decoder_layers + 1` prefixes in total; for `num_decoder_layers ≤ 0`
they are exactly `['proposal_']`. -/
theorem prefixes_characterization (ndl : ℤ) :
    (0 < ndl →
      ((∀ s : String, s ∈ prefixes ndl ↔
          s = "last_" ∨ s = "proposal_" ∨
          ∃ i : ℕ, (i : ℤ) ≤ ndl - 2 ∧ s = toString i ++ "head_") ∧
        ((prefixes ndl).length : ℤ) = ndl + 1)) ∧
    (ndl ≤ 0 → prefixes ndl = ["proposal_"]) := by
  constructor
  · intro hpos
    constructor
    · intro s
      simp only [prefixes, if_pos hpos, List.mem_append, List.mem_cons,
        List.not_mem_nil, or_false, List.mem_map, List.mem_range]
      constructor
      · rintro ((h | h) | ⟨i, hi, rfl⟩)
        · exact Or.inl h
        · exact Or.inr (Or.inl h)
        · exact Or.inr (Or.inr ⟨i, by omega, rfl⟩)
      · rintro (h | h | ⟨i, hi, rfl⟩)
        · exact Or.inl (Or.inl h)
        · exact Or.inl (Or.inr h)
        · exact Or.inr ⟨i, by omega, rfl⟩
    · simp only [prefixes, if_pos hpos, List.length_append, List.length_map,
        List.length_range, List.length_cons, List.length_nil]
      omega
  · intro hle
    simp [prefixes, not_lt.mpr hle]

/-- Witness for C6 at `num_decoder_layers = 3` and `-1`. -/
theorem prefixes_characterization_witness :
    ((prefixes 3).length : ℤ) = 3 + 1 ∧ prefixes (-1) = ["proposal_"] :=
  ⟨((prefixes_characterization 3).1 (by decide)).2,
   (prefixes_characterization (-1)).2 (by decide)⟩

theorem valid_losses_eq (l : List ℚ) : valid_losses l = l := by
  suffices h : ∀ acc : List ℚ, l.foldl (fun acc x => acc ++ [x]) acc = acc ++ l by
    simpa using h []
  induction l with
  | nil => simp
  | cons x xs ih => intro acc; simp [List.foldl_cons, ih]

theorem trainEpochs_append (l1 l2 : List Event) :
    trainEpochs (l1 ++ l2) = trainEpochs l1 ++ trainEpochs l2 :=
  List.filterMap_append l1 l2 _

theorem trainEpochs_esSaveEvents (args : Args) (e : ℕ) (w : Option Bool) :
    trainEpochs (esSaveEvents args e w) = [] := by
  rcases w with _ | b
  · rfl
  · cases b <;> rfl

theorem trainEpochs_periodicSaveEvents (args : Args) (e : ℕ) :
    trainEpochs (periodicSaveEvents args e) = [] := by
  rw [periodicSaveEvents]
  split <;> rfl

theorem esSaveEvents_no_train (args : Args) (e : ℕ) (w : Option Bool) :
    ∀ a ∈ esSaveEvents args e w,
      (match a with
        | Event.trainEpoch e => some e
        | _ => none) = (none : Option ℕ) := by
  intro a ha
  rcases w with _ | b
  · simp [esSaveEvents] at ha
  · cases b
    · simp [esSaveEvents] at ha
    · simp [esSaveEvents] at ha
      subst ha
      rfl

theorem periodicSaveEvents_no_train (args : Args) (e : ℕ) :
    ∀ a ∈ periodicSaveEvents args e,
      (match a with
        | Event.trainEpoch e => some e
        | _ => none) = (none : Option ℕ) := by
  intro a ha
  rw [periodicSaveEvents] at ha
  split at ha
  · simp at ha
    subst ha
    rfl
  · simp at ha

theorem epochStep_trainEpochs (args : Args) (bl : ℕ → List ℚ)
    (es : EarlyStopping) (e : ℕ) :
    trainEpochs (epochStep args bl es e).1 = [e] := by
  by_cases h0 : (args.rank == 0) = true <;>
  by_cases ht : ((e % args.train_eval_freq == 0) || (e == args.val_freq)) = true <;>
  by_cases h1 : (e % args.val_freq == 0) = true <;>
  by_cases h2 : (es.call args.save_freq (evaluate_valid_loss (bl e)) e).1.early_stop
      = true <;>
  simp [epochStep, h0, ht, h1, h2, trainEpochs_append, trainEpochs_esSaveEvents,
    trainEpochs_periodicSaveEvents, trainEpochs] <;>
  first
    | exact esSaveEvents_no_train args e _
    | exact periodicSaveEvents_no_train args e
    | exact ⟨esSaveEvents_no_train args e _, periodicSaveEvents_no_train args e⟩

theorem epochStep_break_early_stop (args : Args) (bl : ℕ → List ℚ)
    (es : EarlyStopping) (e : ℕ) (h : (epochStep args bl es e).2.2 = false) :
    (epochStep args bl es e).2.1.early_stop = true := by
  by_cases h0 : (args.rank == 0) = true <;>
  by_cases h1 : (e % args.val_freq == 0) = true <;>
  by_cases h2 : (es.call args.save_freq (evaluate_valid_loss (bl e)) e).1.early_stop
      = true <;>
  simp_all [epochStep]

theorem ckptPath_last (args : Args) :
    ckptPath args "last" = args.log_dir ++ "/ckpt_epoch_last.pth" := by
  rw [ckptPath]
  rw [String.append_assoc, String.append_assoc]
  rfl

theorem mainLoop_succ (args : Args) (bl : ℕ → List ℚ) (n e : ℕ)
    (es : EarlyStopping) :
    mainLoop args bl (n + 1) e es =
      if (epochStep args bl es e).2.2 then
        ((epochStep args bl es e).1 ++
            (mainLoop args bl n (e + 1) (epochStep args bl es e).2.1).1,
          (mainLoop args bl n (e + 1) (epochStep args bl es e).2.1).2)
      else ((epochStep args bl es e).1, (epochStep args bl es e).2.1) := rfl

/-- C2: once `early_stopping.early_stop` is `true` at a validation epoch
(an epoch divisible by `val_freq`, on rank 0), the loop breaks with no
further training epochs; `main` still appends the final evaluation over the
test loader and the write of `ckpt_epoch_last.pth`, and returns that path. -/
theorem early_stop_break_terminates (args : Args) (bl : ℕ → List ℚ)
    (es : EarlyStopping) (e fuel : ℕ)
    (hr : args.rank = 0) (hv : e % args.val_freq = 0)
    (hstop : (es.call args.save_freq (evaluate_valid_loss (bl e)) e).1.early_stop
      = true) :
    trainEpochs (mainLoop args bl (fuel + 1) e es).1 = [e] ∧
    (mainRun args bl).2.2 = args.log_dir ++ "/ckpt_epoch_last.pth" ∧
    List.IsSuffix
      [Event.finalEval, Event.ckptWrite (args.log_dir ++ "/ckpt_epoch_last.pth")]
      (mainRun args bl).1 := by
  have hbr : (epochStep args bl es e).2.2 = false := by
    simp [epochStep, hr, hv, hstop]
  refine ⟨?_, ?_, ?_⟩
  · rw [mainLoop_succ, if_neg (by simp [hbr])]
    exact epochStep_trainEpochs args bl es e
  · show ckptPath args "last" = _
    exact ckptPath_last args
  · rw [← ckptPath_last args]
    show List.IsSuffix _
      ((mainLoop args bl (args.max_epoch + 1 - args.start_epoch) args.start_epoch
          (EarlyStopping.init 20 0)).1 ++
        [Event.finalEval, Event.ckptWrite (ckptPath args "last")])
    exact List.suffix_append _ _

/-- Witness for C2 at a concrete early-stopping state. -/
theorem early_stop_break_terminates_witness :
    trainEpochs (mainLoop ⟨1, 5, 1, 40, 10, "log", 0⟩ (fun _ => [3]) (3 + 1) 1
      ⟨1, 0, 0, some 0, false, none⟩).1 = [1] ∧
    (mainRun ⟨1, 5, 1, 40, 10, "log", 0⟩ (fun _ => [3])).2.2 =
      "log" ++ "/ckpt_epoch_last.pth" ∧
    List.IsSuffix
      [Event.finalEval, Event.ckptWrite ("log" ++ "/ckpt_epoch_last.pth")]
      (mainRun ⟨1, 5, 1, 40, 10, "log", 0⟩ (fun _ => [3])).1 :=
  early_stop_break_terminates ⟨1, 5, 1, 40, 10, "log", 0⟩ (fun _ => [3])
    ⟨1, 0, 0, some 0, false, none⟩ 1 3 rfl (by decide)
    (by norm_num [EarlyStopping.call, EarlyStopping.saveCkpt,
      evaluate_valid_loss, valid_losses])

theorem mainLoop_no_stop (args : Args) (bl : ℕ → List ℚ) :
    ∀ (fuel e : ℕ) (es : EarlyStopping),
      (mainLoop args bl fuel e es).2.early_stop = false →
      trainEpochs (mainLoop args bl fuel e es).1 = List.range' e fuel := by
  intro fuel
  induction fuel with
  | zero => intro e es _; rfl
  | succ n ih =>
    intro e es h
    rw [mainLoop_succ] at h ⊢
    by_cases hc : (epochStep args bl es e).2.2 = true
    · rw [if_pos hc] at h ⊢
      show trainEpochs ((epochStep args bl es e).1 ++
          (mainLoop args bl n (e + 1) (epochStep args bl es e).2.1).1) =
        List.range' e (n + 1)
      rw [trainEpochs_append, epochStep_trainEpochs,
        ih (e + 1) (epochStep args bl es e).2.1 h]
      rw [List.range'_succ]
      rfl
    · rw [if_neg hc] at h
      have hfalse : (epochStep args bl es e).2.2 = false := by
        revert hc
        cases (epochStep args bl es e).2.2 <;> simp
      have hstop := epochStep_break_early_stop args bl es e hfalse
      exact absurd h (by simp [hstop])

/-- C8: absent early stopping (the run's final early-stopping state has
`early_stop = false`), the epoch loop performs `train_one_epoch` exactly once
for every epoch from `args.start_epoch` to `args.max_epoch` inclusive, and
zero training epochs when `start_epoch > max_epoch`. -/
theorem main_epoch_range (args : Args) (bl : ℕ → List ℚ)
    (hvf : 0 < args.val_freq) (htf : 0 < args.train_eval_freq)
    (hsf : 0 < args.save_freq)
    (hes : (mainRun args bl).2.1.early_stop = false) :
    trainEpochs (mainRun args bl).1 =
      List.range' args.start_epoch (args.max_epoch + 1 - args.start_epoch) ∧
    (args.max_epoch < args.start_epoch → trainEpochs (mainRun args bl).1 = []) := by
  have hmain : (mainRun args bl).1 =
      (mainLoop args bl (args.max_epoch + 1 - args.start_epoch) args.start_epoch
        (EarlyStopping.init 20 0)).1 ++
      [Event.finalEval, Event.ckptWrite (ckptPath args "last")] := rfl
  have hes2 : (mainLoop args bl (args.max_epoch + 1 - args.start_epoch)
      args.start_epoch (EarlyStopping.init 20 0)).2.early_stop = false := hes
  have hloop := mainLoop_no_stop args bl (args.max_epoch + 1 - args.start_epoch)
    args.start_epoch (EarlyStopping.init 20 0) hes2
  constructor
  · rw [hmain, trainEpochs_append, hloop]
    simp [trainEpochs]
  · intro hlt
    rw [hmain, trainEpochs_append, hloop]
    have hz : args.max_epoch + 1 - args.start_epoch = 0 := by omega
    simp [hz, trainEpochs]

/-- Witness for C8: a three-epoch run on a rank that never early-stops. -/
theorem main_epoch_range_witness :
    trainEpochs (mainRun ⟨1, 3, 10, 40, 10, "log", 1⟩ (fun _ => [])).1 =
      List.range' 1 (3 + 1 - 1) ∧
    (3 < 1 → trainEpochs (mainRun ⟨1, 3, 10, 40, 10, "log", 1⟩ (fun _ => [])).1 = []) :=
  main_epoch_range ⟨1, 3, 10, 40, 10, "log", 1⟩ (fun _ => []) (by decide)
    (by decide) (by decide) (by decide)

/-- C7: `evaluate_one_epoch` returns the arithmetic mean of the per-batch
losses it collects (one per batch of the loader), and exactly this value is
fed to `early_stopping` at a validation epoch of `main`. -/
theorem evaluate_valid_loss_mean (args : Args) (bl : ℕ → List ℚ)
    (es : EarlyStopping) (e : ℕ) (hr : args.rank = 0)
    (hv : e % args.val_freq = 0) (hne : bl e ≠ []) :
    evaluate_valid_loss (bl e) = (bl e).sum / ((bl e).length : ℚ) ∧
    (epochStep args bl es e).2.1 =
      (es.call args.save_freq (evaluate_valid_loss (bl e)) e).1 := by
  constructor
  · rw [evaluate_valid_loss, valid_losses_eq]
  · by_cases h2 : (es.call args.save_freq (evaluate_valid_loss (bl e)) e).1.early_stop
        = true <;>
      simp [epochStep, hr, hv, h2]

/-- Witness for C7 on a two-batch loader. -/
theorem evaluate_valid_loss_mean_witness :
    evaluate_valid_loss ([2, 4] : List ℚ) =
      ([2, 4] : List ℚ).sum / ((([2, 4] : List ℚ).length : ℕ) : ℚ) ∧
    (epochStep ⟨1, 5, 1, 40, 10, "log", 0⟩ (fun _ => [2, 4])
        (EarlyStopping.init 20 0) 1).2.1 =
      ((EarlyStopping.init 20 0).call 10 (evaluate_valid_loss ([2, 4] : List ℚ)) 1).1 :=
  evaluate_valid_loss_mean ⟨1, 5, 1, 40, 10, "log", 0⟩ (fun _ => [2, 4])
    (EarlyStopping.init 20 0) 1 rfl (by decide) (by simp)

theorem train_batches_pos (c : ℚ) (hc : 0 < c) :
    ∀ (gs : List ℚ) (gtn : Option ℚ), ∃ r, train_batches c gs gtn = Except.ok r := by
  intro gs
  induction gs with
  | nil => intro gtn; exact ⟨gtn, rfl⟩
  | cons g gs ih =>
    intro gtn
    simp only [train_batches, if_pos hc]
    exact ih (some g)

/-- C9: `train_one_epoch` can complete a batch only when
`config.clip_norm > 0`; for every configuration with `clip_norm ≤ 0` and a
non-empty train loader, the first batch raises `NameError` (reading the
unassigned `grad_total_norm`), while with `clip_norm > 0` every epoch
completes. -/
theorem train_one_epoch_requires_clip_norm (c : ℚ) (gns : List ℚ) :
    (c ≤ 0 → gns ≠ [] → train_one_epoch c gns = Except.error "NameError") ∧
    (0 < c → ∃ r, train_one_epoch c gns = Except.ok r) := by
  constructor
  · intro hc hne
    rcases gns with _ | ⟨g, gs⟩
    · exact absurd rfl hne
    · simp [train_one_epoch, train_batches, not_lt.mpr hc]
  · intro hc
    exact train_batches_pos c hc gns none

/-- Witness for C9: `clip_norm = 0` with a single batch raises `NameError`. -/
theorem train_one_epoch_requires_clip_norm_witness :
    train_one_epoch 0 [1] = Except.error "NameError" :=
  (train_one_epoch_requires_clip_norm 0 [1]).1 le_rfl (by simp)
